import Mathlib

/-!
Verification of `src/coffea/nanoevents/__init__.py`, the namespace-aggregation
module of the `coffea.nanoevents` subpackage.

The module body consists of two `from ... import ...` statements and an
assignment to `__all__`:

  from coffea.nanoevents.factory import NanoEventsFactory
  from coffea.nanoevents.schemas import (
      BaseSchema, NanoAODSchema, PFNanoAODSchema,
      TreeMakerSchema, PHYSLITESchema, DelphesSchema,
  )
  __all__ = [ ... the same seven names ... ]

We embed the module at the granularity of the Python import semantics: the two
source modules (`factory` and `schemas`) are abstract environments mapping
attribute names to values of an arbitrary type `V`; a module that fails to
load is `none`.  Executing the body of the aggregator resolves each imported name
in order and fails (the whole module initialization aborts, and the module is
removed from `sys.modules`, exporting nothing) as soon as a source module is
unloadable or a name is unresolvable.  Python-managed dunder attributes
(`__name__`, `__doc__`, ...) are outside the model; the `__all__` assignment
is tracked separately since its value is a list of strings, not a `V`.
-/

namespace CoffeaNanoevents

/-- The names the module body imports from `coffea.nanoevents.factory`
(line 4 of the source). -/
def factoryImports : List String := ["NanoEventsFactory"]

/-- The names the module body imports from `coffea.nanoevents.schemas`
(lines 5-12 of the source), in source order. -/
def schemasImports : List String :=
  ["BaseSchema", "NanoAODSchema", "PFNanoAODSchema", "TreeMakerSchema",
   "PHYSLITESchema", "DelphesSchema"]

/-- The `__all__` list assigned on lines 14-22 of the source, in source
order. -/
def __all__ : List String :=
  ["NanoEventsFactory", "BaseSchema", "NanoAODSchema", "PFNanoAODSchema",
   "TreeMakerSchema", "PHYSLITESchema", "DelphesSchema"]

/-- The state of the two source modules the aggregator imports from.  Each
field is `none` when loading that module itself raises (missing dependency,
broken module), and otherwise `some f` where `f` maps each resolvable
attribute name to its value. -/
structure ModuleEnv (V : Type) where
  factory : Option (String → Option V)
  schemas : Option (String → Option V)

/-- Resolve a list of imported names against a loaded module, in order,
failing at the first name the module does not provide.  This is the
name-resolution part of a `from m import a, b, ...` statement. -/
def resolveNames {V : Type} (f : String → Option V) :
    List String → Option (List (String × V))
  | [] => some []
  | n :: rest =>
    match f n with
    | none => none
    | some v =>
      match resolveNames f rest with
      | none => none
      | some tl => some ((n, v) :: tl)

/-- Execute the body of the aggregator module against the given state of the two
source modules: load `factory` and resolve its import list, then load
`schemas` and resolve its import list.  `none` means module initialization
raised; on success the result is the namespace of the module restricted to the
names the body binds (the `__all__` assignment, whose value is not a `V`,
is tracked by `boundNames` below). -/
def initModule {V : Type} (env : ModuleEnv V) : Option (List (String × V)) :=
  match env.factory with
  | none => none
  | some f =>
    match resolveNames f factoryImports with
    | none => none
    | some fb =>
      match env.schemas with
      | none => none
      | some s =>
        match resolveNames s schemasImports with
        | none => none
        | some sb => some (fb ++ sb)

/-- Look a name up in a module namespace. -/
def lookupName {V : Type} (ns : List (String × V)) (n : String) : Option V :=
  (ns.find? (fun p => p.1 == n)).map Prod.snd

/-- The binding obtained by importing `n` directly from its defining module:
names in the `factory` import statement resolve against `factory`, names in
the `schemas` import statement against `schemas`. -/
def importFromDefining {V : Type} (env : ModuleEnv V) (n : String) : Option V :=
  if n ∈ factoryImports then env.factory.bind (fun f => f n)
  else if n ∈ schemasImports then env.schemas.bind (fun s => s n)
  else none

/-- The internal module each imported name is re-exported from, read off the
two import statements of the source. -/
def definingModule (n : String) : Option String :=
  if n ∈ factoryImports then some "factory"
  else if n ∈ schemasImports then some "schemas"
  else none

/-- Every name the module body binds in the namespace of the aggregator: the
imported names plus `__all__` itself (the assignment on line 14). -/
def boundNames : List String := factoryImports ++ schemasImports ++ ["__all__"]

/-- Modelled from the spec: the internal submodules `factory` and `schemas`
of the `coffea.nanoevents` package, whose sources are not in the provided
excerpt.  After the body of the aggregator imports from them, the import system
has bound each as an attribute of the parent package. -/
def submoduleNames : List String := ["factory", "schemas"]

/-- Whether `from coffea.nanoevents import n` succeeds once the aggregator
has initialized: Python resolves `n` as an attribute of the package (a name
bound by the module body, or a submodule bound by the import system), and
otherwise falls back to importing the submodule `coffea.nanoevents.n`,
which exists only for the two submodules modelled above. -/
def importSucceeds (n : String) : Bool :=
  n ∈ boundNames || n ∈ submoduleNames

/-- the Python wildcard-import rule: `from m import *` binds exactly the names
in `m.__all__` when `__all__` is defined, and otherwise every bound name not
starting with an underscore. -/
def starNames (allList : Option (List String)) (bound : List String) :
    List String :=
  match allList with
  | some l => l
  | none => bound.filter (fun n => !n.startsWith "_")

/-- Resolution of a name against a possibly-unloaded module. -/
def resolveFrom {V : Type} (m : Option (String → Option V)) (n : String) :
    Option V :=
  m.bind (fun f => f n)

/-- A sample state of the source modules in which every name resolves. -/
def sampleEnv : ModuleEnv Nat :=
  ⟨some (fun _ => some 0), some (fun _ => some 1)⟩

/-- The namespace `initModule` produces on `sampleEnv`. -/
def sampleNs : List (String × Nat) :=
  [("NanoEventsFactory", 0), ("BaseSchema", 1), ("NanoAODSchema", 1),
   ("PFNanoAODSchema", 1), ("TreeMakerSchema", 1), ("PHYSLITESchema", 1),
   ("DelphesSchema", 1)]

/-- A second sample environment, pointwise equal to `sampleEnv` but written
with different closures. -/
def sampleEnvB : ModuleEnv Nat :=
  ⟨some (fun _ => some (0 + 0)), some (fun _ => some (0 + 1))⟩



/-- If `initModule` succeeds, the two source modules loaded, every imported
name resolved, and the namespace is exactly the seven bindings in source
order. -/
lemma initModule_some_iff {V : Type} (env : ModuleEnv V) (ns : List (String × V)) :
    initModule env = some ns ↔
    ∃ f s v1 v2 v3 v4 v5 v6 v7,
      env.factory = some f ∧ env.schemas = some s ∧
      f "NanoEventsFactory" = some v1 ∧
      s "BaseSchema" = some v2 ∧ s "NanoAODSchema" = some v3 ∧
      s "PFNanoAODSchema" = some v4 ∧ s "TreeMakerSchema" = some v5 ∧
      s "PHYSLITESchema" = some v6 ∧ s "DelphesSchema" = some v7 ∧
      ns = [("NanoEventsFactory", v1), ("BaseSchema", v2), ("NanoAODSchema", v3),
            ("PFNanoAODSchema", v4), ("TreeMakerSchema", v5), ("PHYSLITESchema", v6),
            ("DelphesSchema", v7)] := by
  constructor
  · intro h
    unfold initModule at h
    cases hf : env.factory with
    | none => rw [hf] at h; exact absurd h (by simp)
    | some f =>
      rw [hf] at h
      cases hs : env.schemas with
      | none =>
        rw [hs] at h
        simp only [factoryImports, resolveNames] at h
        cases h1 : f "NanoEventsFactory" <;> rw [h1] at h <;> simp at h
      | some s =>
        rw [hs] at h
        simp only [factoryImports, schemasImports, resolveNames] at h
        cases h1 : f "NanoEventsFactory" <;> rw [h1] at h <;> try simp at h
        cases h2 : s "BaseSchema" <;> rw [h2] at h <;> try simp at h
        cases h3 : s "NanoAODSchema" <;> rw [h3] at h <;> try simp at h
        cases h4 : s "PFNanoAODSchema" <;> rw [h4] at h <;> try simp at h
        cases h5 : s "TreeMakerSchema" <;> rw [h5] at h <;> try simp at h
        cases h6 : s "PHYSLITESchema" <;> rw [h6] at h <;> try simp at h
        cases h7 : s "DelphesSchema" <;> rw [h7] at h <;> try simp at h
        exact ⟨f, s, _, _, _, _, _, _, _, rfl, rfl, h1, h2, h3, h4, h5, h6, h7, h.symm⟩
  · rintro ⟨f, s, v1, v2, v3, v4, v5, v6, v7, hf, hs, h1, h2, h3, h4, h5, h6, h7, rfl⟩
    unfold initModule
    rw [hf, hs]
    simp only [factoryImports, schemasImports, resolveNames, h1, h2, h3, h4, h5, h6, h7]
    rfl

/-- `resolveNames` applies the same function pointwise, so pointwise-equal
modules resolve identically. -/
lemma resolveNames_congr {V : Type} {f1 f2 : String → Option V}
    (h : ∀ n, f1 n = f2 n) : ∀ l, resolveNames f1 l = resolveNames f2 l
  | [] => rfl
  | n :: rest => by
    rw [resolveNames, resolveNames, h n, resolveNames_congr h rest]


/-- C1: the export list `__all__` contains exactly the seven names
`NanoEventsFactory`, `BaseSchema`, `NanoAODSchema`, `PFNanoAODSchema`,
`TreeMakerSchema`, `PHYSLITESchema`, `DelphesSchema` — no more, no fewer,
no duplicates. -/
theorem all_list_is_exactly_the_seven_names :
    __all__ = ["NanoEventsFactory", "BaseSchema", "NanoAODSchema",
               "PFNanoAODSchema", "TreeMakerSchema", "PHYSLITESchema",
               "DelphesSchema"] ∧
    __all__.length = 7 ∧ __all__.Nodup := by
  refine ⟨rfl, rfl, ?_⟩
  decide

/-- C2: whenever the aggregator initializes successfully, each name in the
export list is bound in its namespace, and the binding is the very value
obtained by resolving the name from its defining module. -/
theorem aggregator_binding_eq_defining_module_binding {V : Type}
    (env : ModuleEnv V) (ns : List (String × V)) (h : initModule env = some ns) :
    ∀ n ∈ __all__,
      (lookupName ns n).isSome ∧ lookupName ns n = importFromDefining env n := by
  rw [initModule_some_iff] at h
  obtain ⟨f, s, v1, v2, v3, v4, v5, v6, v7, hf, hs, h1, h2, h3, h4, h5, h6, h7, rfl⟩ := h
  intro n hn
  fin_cases hn <;>
    refine ⟨rfl, ?_⟩ <;>
    simp [lookupName, importFromDefining, factoryImports, schemasImports,
          hf, hs, h1, h2, h3, h4, h5, h6, h7]

theorem aggregator_binding_eq_defining_module_binding_witness :
    (lookupName sampleNs "BaseSchema").isSome ∧
    lookupName sampleNs "BaseSchema" = importFromDefining sampleEnv "BaseSchema" :=
  aggregator_binding_eq_defining_module_binding sampleEnv sampleNs rfl
    "BaseSchema" (by decide)


/-- C3: if either source module fails to load, or some listed name cannot be
resolved from its source module, initialization of the aggregator fails
entirely and exports nothing — there is no partial-success outcome. -/
theorem init_fails_entirely_on_any_import_failure {V : Type} (env : ModuleEnv V)
    (h : env.factory = none ∨ env.schemas = none ∨
      (∃ f, env.factory = some f ∧ ∃ n ∈ factoryImports, f n = none) ∨
      (∃ s, env.schemas = some s ∧ ∃ n ∈ schemasImports, s n = none)) :
    initModule env = none := by
  cases hinit : initModule env with
  | none => rfl
  | some ns =>
    exfalso
    rw [initModule_some_iff] at hinit
    obtain ⟨f, s, v1, v2, v3, v4, v5, v6, v7, hf, hs, h1, h2, h3, h4, h5, h6, h7, -⟩ :=
      hinit
    rcases h with hf0 | hs0 | ⟨g, hg, n, hn, hgn⟩ | ⟨t, ht, n, hn, htn⟩
    · rw [hf0] at hf; exact Option.noConfusion hf
    · rw [hs0] at hs; exact Option.noConfusion hs
    · rw [hg] at hf
      injection hf with hf
      subst hf
      fin_cases hn
      · rw [hgn] at h1; exact Option.noConfusion h1
    · rw [ht] at hs
      injection hs with hs
      subst hs
      fin_cases hn
      · rw [htn] at h2; exact Option.noConfusion h2
      · rw [htn] at h3; exact Option.noConfusion h3
      · rw [htn] at h4; exact Option.noConfusion h4
      · rw [htn] at h5; exact Option.noConfusion h5
      · rw [htn] at h6; exact Option.noConfusion h6
      · rw [htn] at h7; exact Option.noConfusion h7

theorem init_fails_entirely_on_any_import_failure_witness :
    initModule (⟨none, none⟩ : ModuleEnv Nat) = none :=
  init_fails_entirely_on_any_import_failure ⟨none, none⟩ (Or.inl rfl)

/-- C4 counterexample: `factory` is not in the export list, yet
`from coffea.nanoevents import factory` succeeds, because the import system
binds the loaded submodule as an attribute of the package. -/
theorem nonexported_name_importable :
    "factory" ∉ __all__ ∧ importSucceeds "factory" = true := by
  decide

/-- C4 (amended): importing from the aggregator a name that is neither bound
by the module body nor one of the submodules of the package fails; only those
names — not the export list alone — delimit what is importable. -/
theorem unbound_name_import_fails (n : String)
    (hb : n ∉ boundNames) (hsub : n ∉ submoduleNames) :
    importSucceeds n = false := by
  simp [importSucceeds, hb, hsub]

theorem unbound_name_import_fails_witness :
    importSucceeds "events_helper" = false :=
  unbound_name_import_fails "events_helper" (by decide) (by decide)

/-- C5: each exported symbol is sourced from the module the spec names —
`NanoEventsFactory` from `factory`, the six schema classes from `schemas`. -/
theorem exports_sourced_from_named_modules :
    definingModule "NanoEventsFactory" = some "factory" ∧
    definingModule "BaseSchema" = some "schemas" ∧
    definingModule "NanoAODSchema" = some "schemas" ∧
    definingModule "PFNanoAODSchema" = some "schemas" ∧
    definingModule "TreeMakerSchema" = some "schemas" ∧
    definingModule "PHYSLITESchema" = some "schemas" ∧
    definingModule "DelphesSchema" = some "schemas" := by
  decide

/-- C6: a successful initialization binds exactly the names of the export
list (in order) in the module namespace, and the module body binds nothing
beyond those seven names and `__all__` itself. -/
theorem init_binds_only_exported_names {V : Type} (env : ModuleEnv V)
    (ns : List (String × V)) (h : initModule env = some ns) :
    ns.map Prod.fst = __all__ ∧ boundNames = __all__ ++ ["__all__"] := by
  rw [initModule_some_iff] at h
  obtain ⟨f, s, v1, v2, v3, v4, v5, v6, v7, hf, hs, h1, h2, h3, h4, h5, h6, h7, rfl⟩ := h
  exact ⟨rfl, rfl⟩

theorem init_binds_only_exported_names_witness :
    sampleNs.map Prod.fst = __all__ ∧ boundNames = __all__ ++ ["__all__"] :=
  init_binds_only_exported_names sampleEnv sampleNs rfl

/-- C7: `__all__` has no duplicates, lists the same names as the two import
statements, and every name in it is bound in the namespace of a
successfully initialized aggregator. -/
theorem all_list_matches_imports_and_bindings {V : Type} (env : ModuleEnv V)
    (ns : List (String × V)) (h : initModule env = some ns) :
    __all__.Nodup ∧
    (∀ n, n ∈ __all__ ↔ n ∈ factoryImports ++ schemasImports) ∧
    (∀ n ∈ __all__, (lookupName ns n).isSome) := by
  rw [initModule_some_iff] at h
  obtain ⟨f, s, v1, v2, v3, v4, v5, v6, v7, hf, hs, h1, h2, h3, h4, h5, h6, h7, rfl⟩ := h
  refine ⟨by decide, fun n => Iff.rfl, fun n hn => ?_⟩
  fin_cases hn <;> rfl

theorem all_list_matches_imports_and_bindings_witness :
    (lookupName sampleNs "DelphesSchema").isSome :=
  (all_list_matches_imports_and_bindings sampleEnv sampleNs rfl).2.2
    "DelphesSchema" (by decide)

/-- C8: a wildcard import from the aggregator binds exactly the seven names
of `__all__`; in particular the submodule names `factory` and `schemas`,
although attributes of the package, are not among them. -/
theorem star_import_binds_exactly_all_list :
    starNames (some __all__) (boundNames ++ submoduleNames) =
      ["NanoEventsFactory", "BaseSchema", "NanoAODSchema", "PFNanoAODSchema",
       "TreeMakerSchema", "PHYSLITESchema", "DelphesSchema"] ∧
    "factory" ∉ starNames (some __all__) (boundNames ++ submoduleNames) ∧
    "schemas" ∉ starNames (some __all__) (boundNames ++ submoduleNames) := by
  decide

/-- C9: module initialization is deterministic — two initializations against
loaded-alike, pointwise-equal source modules produce identical namespaces
(and the `__all__` assignment is a fixed literal). -/
theorem init_deterministic {V : Type} (env1 env2 : ModuleEnv V)
    (hfl : env1.factory.isSome = env2.factory.isSome)
    (hfv : ∀ n, resolveFrom env1.factory n = resolveFrom env2.factory n)
    (hsl : env1.schemas.isSome = env2.schemas.isSome)
    (hsv : ∀ n, resolveFrom env1.schemas n = resolveFrom env2.schemas n) :
    initModule env1 = initModule env2 := by
  cases hf1 : env1.factory with
  | none =>
    cases hf2 : env2.factory with
    | none => simp [initModule, hf1, hf2]
    | some f2 => rw [hf1, hf2] at hfl; simp at hfl
  | some f1 =>
    cases hf2 : env2.factory with
    | none => rw [hf1, hf2] at hfl; simp at hfl
    | some f2 =>
      have hfp : ∀ n, f1 n = f2 n := by
        intro n
        have := hfv n
        simpa [resolveFrom, hf1, hf2] using this
      cases hs1 : env1.schemas with
      | none =>
        cases hs2 : env2.schemas with
        | none => simp [initModule, hf1, hf2, hs1, hs2, resolveNames_congr hfp]
        | some s2 => rw [hs1, hs2] at hsl; simp at hsl
      | some s1 =>
        cases hs2 : env2.schemas with
        | none => rw [hs1, hs2] at hsl; simp at hsl
        | some s2 =>
          have hsp : ∀ n, s1 n = s2 n := by
            intro n
            have := hsv n
            simpa [resolveFrom, hs1, hs2] using this
          simp [initModule, hf1, hf2, hs1, hs2,
                resolveNames_congr hfp, resolveNames_congr hsp]


theorem init_deterministic_witness :
    initModule sampleEnv = initModule sampleEnvB :=
  init_deterministic sampleEnv sampleEnvB rfl (fun _ => rfl) rfl (fun _ => rfl)

end CoffeaNanoevents
